import Mathlib

/-!
Verification of the `caption_engine` package (subnow repository).

Shallow embedding conventions:
* Python `float` values carrying times/durations are modelled as exact
  rationals (`ℚ`): a `ℚ` operand stands for the exact value of the IEEE-754
  double the program computes with.  A decimal literal that is not exactly
  representable (e.g. `3723.45`) must therefore be translated to the exact
  value of its stored double, not to the decimal fraction.  Python `int` is
  `ℤ` (or `ℕ` where the source value is provably a count).
* Python `int(x)` (truncation toward zero) is `pyint`; Python `x % y` on
  non-negative divisors is `qmod`.
* Python functions that can raise (`ValueError` etc.) return
  `Except String _`, the error string mirroring the raised message.
* Python strings are Lean `String`s; braces inside string literals are
  written with the `\x7b`/`\x7d` escapes.
-/

namespace CaptionEngine

/-- Python `int(x)` applied to an exact rational: truncation toward zero. -/
def pyint (q : ℚ) : ℤ := if 0 ≤ q then ⌊q⌋ else ⌈q⌉

/-- Python `a % b` on floats (for `b > 0`): `a - b * floor (a / b)`. -/
def qmod (a b : ℚ) : ℚ := a - b * ⌊a / b⌋

/-- The character `{` (written via its code point to keep it out of source literals). -/
def lbrace : Char := Char.ofNat 123

/-- The character `}`. -/
def rbrace : Char := Char.ofNat 125

/-- The string `"{"`. -/
def lbraceS : String := String.mk [lbrace]

/-- The string `"}"`. -/
def rbraceS : String := String.mk [rbrace]

/-- The string consisting of one single-quote character (code point 39). -/
def squote : String := String.mk [Char.ofNat 39]

/-- Python list repr of a list of strings: `['a', 'b']`. -/
def pyStrList (l : List String) : String :=
  "[" ++ String.intercalate ", " (l.map (fun s => squote ++ s ++ squote)) ++ "]"

/-- ASCII lower-casing of one character. -/
def lowerChar (c : Char) : Char :=
  if 65 <= c.toNat && c.toNat <= 90 then Char.ofNat (c.toNat + 32) else c

/-- Python `str.lower()` (every string it is applied to in this codebase is
ASCII, where this agrees with Python's Unicode lowering). -/
def pyLower (s : String) : String := String.mk (s.toList.map lowerChar)

/-- ASCII upper-casing of one character. -/
def upperChar (c : Char) : Char :=
  if 97 <= c.toNat && c.toNat <= 122 then Char.ofNat (c.toNat - 32) else c

/-- Python `str.upper()` (applied only to ASCII text in this codebase). -/
def pyUpper (s : String) : String := String.mk (s.toList.map upperChar)

/-- Python `f"{n:02d}"` for an integer: zero-pad to width 2. -/
def pad2 (n : ℤ) : String :=
  if 0 ≤ n ∧ n < 10 then "0" ++ toString n else toString n

/-- `pad2` on a natural number (used on the specification side). -/
def pad2Nat (n : ℕ) : String :=
  if n < 10 then "0" ++ Nat.repr n else Nat.repr n

/-- Uppercase hexadecimal digit for `n < 16`. -/
def hexDigitChar (n : ℕ) : Char :=
  if n < 10 then Char.ofNat (48 + n) else Char.ofNat (65 + (n - 10))

/-- Uppercase hexadecimal rendering of a natural number (no padding). -/
def natToHex (n : ℕ) : String :=
  if _h : n < 16 then String.mk [hexDigitChar n]
  else natToHex (n / 16) ++ String.mk [hexDigitChar (n % 16)]
decreasing_by exact Nat.div_lt_self (by omega) (by omega)

/-- Python `f"{n:02X}"` for the byte values produced by hex parsing. -/
def hex2X (n : ℕ) : String :=
  if n < 16 then "0" ++ natToHex n else natToHex n

/-- `true` iff `p` occurs as a contiguous substring (list infix) of `l`. -/
def containsSubL (p : List Char) : List Char → Bool
  | [] => p.isPrefixOf []
  | c :: rest => p.isPrefixOf (c :: rest) || containsSubL p rest

/-- Substring test on strings. -/
def containsStr (s pat : String) : Bool := containsSubL pat.toList s.toList

/-- Number of (possibly overlapping) occurrences of `p` in `l`. -/
def countSubL (p : List Char) : List Char → ℕ
  | [] => if p.isPrefixOf [] then 1 else 0
  | c :: rest => (if p.isPrefixOf (c :: rest) then 1 else 0) + countSubL p rest

/-- Occurrence count on strings. -/
def countSub (s pat : String) : ℕ := countSubL pat.toList s.toList

/-- `caption_engine.utils.Word`: a single word with timing information. -/
structure Word where
  text : String
  start : ℚ
  end_ : ℚ
  confidence : ℚ := 1
deriving DecidableEq, Repr

/-- `Word.duration`: duration in seconds. -/
def Word.duration (w : Word) : ℚ := w.end_ - w.start

/-- `Word.duration_cs`: duration in centiseconds, `int(self.duration * 100)`. -/
def Word.duration_cs (w : Word) : ℤ := pyint (w.duration * 100)

/-- `caption_engine.utils.CaptionLine`: a line of caption containing multiple words. -/
structure CaptionLine where
  words : List Word
deriving DecidableEq, Repr

/-- `CaptionLine.text`: combined text of all words. -/
def CaptionLine.text (l : CaptionLine) : String :=
  String.intercalate " " (l.words.map Word.text)

/-- `CaptionLine.start`: `self.words[0].start if self.words else 0`. -/
def CaptionLine.start (l : CaptionLine) : ℚ :=
  match l.words with
  | [] => 0
  | w :: _ => w.start

/-- `CaptionLine.end`: `self.words[-1].end if self.words else 0`. -/
def CaptionLine.end_ (l : CaptionLine) : ℚ :=
  match l.words.getLast? with
  | none => 0
  | some w => w.end_

/-- Hexadecimal value of one character, as accepted by Python `int(_, 16)`. -/
def hexVal (c : Char) : Option ℕ :=
  if 48 ≤ c.toNat ∧ c.toNat ≤ 57 then some (c.toNat - 48)
  else if 97 ≤ c.toNat ∧ c.toNat ≤ 102 then some (c.toNat - 97 + 10)
  else if 65 ≤ c.toNat ∧ c.toNat ≤ 70 then some (c.toNat - 65 + 10)
  else none

/-- Accumulating base-16 parse of a digit list (`none` as soon as a
non-digit is hit). -/
def int16Core (l : List Char) : Option ℕ :=
  l.foldl (fun acc c =>
    match acc, hexVal c with
    | some a, some v => some (16 * a + v)
    | _, _ => none) (some 0)

/-- Python `int(s, 16)` restricted to strings of bare hex digits (the only
shape this codebase feeds it); empty or non-digit input raises `ValueError`.
Signs, whitespace, underscores and `0x` prefixes never occur at the call
sites and are not modelled. -/
def int16 (l : List Char) : Except String ℕ :=
  match (if l.isEmpty then none else int16Core l) with
  | some n => Except.ok n
  | none => Except.error ("invalid literal for int() with base 16: " ++
      squote ++ String.mk l ++ squote)

/-- `caption_engine.utils.hex_to_ass_color`: convert `#RGB`/`#RRGGBB` to the
ASS `&H00BBGGRR` form. -/
def hex_to_ass_color (hex_color : String) : Except String String :=
  let h := hex_color.toList.dropWhile (fun c => c = '#')
  let h := if h.length = 3 then h.flatMap (fun c => [c, c]) else h
  do
    let r ← int16 (h.take 2)
    let g ← int16 ((h.drop 2).take 2)
    let b ← int16 ((h.drop 4).take 2)
    pure ("&H00" ++ hex2X b ++ hex2X g ++ hex2X r)

/-- `caption_engine.utils.seconds_to_ass_time`: ASS timestamp `H:MM:SS.CC`.
The argument is the exact value of the float operand.  Python float `//`
and `%` are exactly rounded, and `%` of a finite double by a positive
integer is exactly representable, so the divisions and remainders below are
the program's values exactly; the one rounding float multiplication,
`(seconds % 1) * 100`, is exactly representable at every input these
theorems evaluate (its product needs at most 53 significand bits there). -/
def seconds_to_ass_time (seconds : ℚ) : String :=
  let hours : ℤ := ⌊seconds / 3600⌋
  let minutes : ℤ := ⌊qmod seconds 3600 / 60⌋
  let secs : ℤ := ⌊qmod seconds 60⌋
  let centisecs : ℤ := ⌊qmod seconds 1 * 100⌋
  toString hours ++ ":" ++ pad2 minutes ++ ":" ++ pad2 secs ++ "." ++ pad2 centisecs

/-- `caption_engine.utils.alignment_to_ass`: numpad-style grid code. -/
def alignment_to_ass (alignment : String) (position_y : ℤ) : ℤ :=
  let v_offset : ℤ := if position_y < 33 then 6 else if position_y < 66 then 3 else 0
  let h_base : ℤ := if alignment = "left" then 1 else if alignment = "right" then 3 else 2
  v_offset + h_base

/-- `caption_engine.utils.escape_ass_text`: escape ASS specials
(backslash, braces, newline). The Python source applies four sequential
`str.replace` calls; on each original character they act independently, so a
single character-wise pass is equivalent. -/
def escape_ass_text (text : String) : String :=
  String.mk (text.toList.flatMap (fun c =>
    if c = '\\' then ['\\', '\\']
    else if c = lbrace then ['\\', lbrace]
    else if c = rbrace then ['\\', rbrace]
    else if c = '\n' then ['\\', 'N']
    else [c]))

/-- `caption_engine.utils.calculate_font_bold`. -/
def calculate_font_bold (weight : ℤ) : Bool := weight ≥ 700

/-- `caption_engine.utils.calculate_margin_v`. -/
def calculate_margin_v (position_y : ℤ) (video_height : ℤ) : ℤ :=
  if position_y > 50 then pyint ((video_height * (100 - position_y) : ℤ) / (100 : ℚ))
  else pyint ((video_height * position_y : ℤ) / (100 : ℚ))

/-- Loop body of `caption_engine.utils.group_words_into_lines`: processes the
remaining words, carrying the finished lines, the accumulating current line
and its running character count. -/
def groupWordsGo (words_per_line max_chars_per_line : ℤ) :
    List Word → List CaptionLine → List Word → ℤ → List CaptionLine
  | [], lines, current, _chars =>
      if current = [] then lines else lines ++ [⟨current⟩]
  | w :: rest, lines, current, chars =>
      if current ≠ [] ∧ ((current.length : ℤ) ≥ words_per_line ∨
          chars + (w.text.length : ℤ) + 1 > max_chars_per_line) then
        groupWordsGo words_per_line max_chars_per_line rest
          (lines ++ [⟨current⟩]) [w] ((w.text.length : ℤ) + 1)
      else
        groupWordsGo words_per_line max_chars_per_line rest
          lines (current ++ [w]) (chars + (w.text.length : ℤ) + 1)

/-- `caption_engine.utils.group_words_into_lines`: greedy single-pass
grouping of words into display lines under word-count and character limits. -/
def group_words_into_lines (words : List Word) (words_per_line : ℤ := 3)
    (max_chars_per_line : ℤ := 30) : List CaptionLine :=
  if words = [] then []
  else groupWordsGo words_per_line max_chars_per_line words [] [] 0

/-- `caption_engine.themes.AnimationStyle` (a `str` enum with 6 members). -/
inductive AnimationStyle where
  | none
  | karaoke
  | bounce
  | pop
  | glow
  | wave
deriving DecidableEq, Repr

/-- The `.value` string of an `AnimationStyle` member. -/
def AnimationStyle.value : AnimationStyle → String
  | .none => "none"
  | .karaoke => "karaoke"
  | .bounce => "bounce"
  | .pop => "pop"
  | .glow => "glow"
  | .wave => "wave"

/-- Python `f"{style}"` on an `AnimationStyle` member renders the qualified
enum member name. -/
def AnimationStyle.pyStr : AnimationStyle → String
  | .none => "AnimationStyle.NONE"
  | .karaoke => "AnimationStyle.KARAOKE"
  | .bounce => "AnimationStyle.BOUNCE"
  | .pop => "AnimationStyle.POP"
  | .glow => "AnimationStyle.GLOW"
  | .wave => "AnimationStyle.WAVE"

/-- `caption_engine.themes.Alignment`. -/
inductive Alignment where
  | left
  | center
  | right
deriving DecidableEq, Repr

/-- The `.value` string of an `Alignment` member. -/
def Alignment.value : Alignment → String
  | .left => "left"
  | .center => "center"
  | .right => "right"

/-- `caption_engine.themes.Theme`: caption theme configuration, with the
source's field defaults. -/
structure Theme where
  name : String
  font_family : String := "Montserrat"
  font_size : ℤ := 80
  font_weight : ℤ := 800
  text_color : String := "#FFFFFF"
  highlight_color : String := "#FFFF00"
  outline_color : String := "#000000"
  shadow_color : String := "#000000"
  background_color : Option String := Option.none
  position_x : ℤ := 50
  position_y : ℤ := 70
  alignment : Alignment := Alignment.center
  outline_width : ℤ := 4
  shadow_offset : ℤ := 2
  shadow_blur : ℤ := 0
  animation_style : AnimationStyle := AnimationStyle.karaoke
  animation_speed : ℚ := 1
  words_per_line : ℤ := 3
  max_chars_per_line : ℤ := 30
  line_spacing : ℤ := 10
  uppercase : Bool := false
  letter_spacing : ℤ := 0
  is_default : Bool := false
  is_custom : Bool := false
deriving DecidableEq, Repr

/-- `caption_engine.themes.THEME_HORMOZI`. -/
def THEME_HORMOZI : Theme :=
  { name := "Hormozi", font_family := "Montserrat", font_size := 80,
    font_weight := 800, text_color := "#FFFFFF", highlight_color := "#FFFF00",
    outline_color := "#000000", outline_width := 4, shadow_offset := 3,
    position_y := 70, animation_style := AnimationStyle.karaoke,
    words_per_line := 3, uppercase := true, is_default := true }

/-- `caption_engine.themes.THEME_BEAST`. -/
def THEME_BEAST : Theme :=
  { name := "Beast", font_family := "Impact", font_size := 90,
    font_weight := 700, text_color := "#FFFFFF", highlight_color := "#FF0000",
    outline_color := "#000000", outline_width := 6, shadow_offset := 4,
    position_y := 80, animation_style := AnimationStyle.pop,
    words_per_line := 2, uppercase := true, is_default := true }

/-- `caption_engine.themes.THEME_CLEAN`. -/
def THEME_CLEAN : Theme :=
  { name := "Clean", font_family := "Inter", font_size := 60,
    font_weight := 600, text_color := "#FFFFFF", highlight_color := "#00BFFF",
    outline_color := "#000000", outline_width := 2, shadow_offset := 1,
    position_y := 85, animation_style := AnimationStyle.none,
    words_per_line := 5, max_chars_per_line := 40, is_default := true }

/-- `caption_engine.themes.THEME_NEON`. -/
def THEME_NEON : Theme :=
  { name := "Neon", font_family := "Poppins", font_size := 70,
    font_weight := 700, text_color := "#00FF00", highlight_color := "#FF00FF",
    outline_color := "#000000", outline_width := 3, shadow_blur := 10,
    position_y := 75, animation_style := AnimationStyle.glow,
    words_per_line := 3, is_default := true }

/-- `caption_engine.themes.THEME_MINIMAL`. -/
def THEME_MINIMAL : Theme :=
  { name := "Minimal", font_family := "Helvetica", font_size := 50,
    font_weight := 400, text_color := "#FFFFFF", highlight_color := "#FFFFFF",
    outline_color := "#000000", outline_width := 1, shadow_offset := 0,
    position_y := 90, animation_style := AnimationStyle.none,
    words_per_line := 6, max_chars_per_line := 50, is_default := true }

/-- `caption_engine.themes.THEME_BOLD`. -/
def THEME_BOLD : Theme :=
  { name := "Bold", font_family := "Arial Black", font_size := 85,
    font_weight := 900, text_color := "#FFFFFF", highlight_color := "#FFA500",
    outline_color := "#000000", outline_width := 5, shadow_offset := 4,
    position_y := 70, animation_style := AnimationStyle.bounce,
    words_per_line := 2, uppercase := true, is_default := true }

/-- `caption_engine.themes.THEME_GRADIENT`. -/
def THEME_GRADIENT : Theme :=
  { name := "Gradient", font_family := "Montserrat", font_size := 75,
    font_weight := 700, text_color := "#FF6B6B", highlight_color := "#4ECDC4",
    outline_color := "#2C3E50", outline_width := 3, shadow_offset := 2,
    position_y := 72, animation_style := AnimationStyle.wave,
    words_per_line := 3, is_default := true }

/-- `caption_engine.themes.THEME_SARA`. -/
def THEME_SARA : Theme :=
  { name := "Sara", font_family := "Poppins", font_size := 65,
    font_weight := 600, text_color := "#FFFFFF", highlight_color := "#FF69B4",
    outline_color := "#000000", outline_width := 3, shadow_offset := 2,
    position_y := 75, animation_style := AnimationStyle.karaoke,
    words_per_line := 4, is_default := true }

/-- A theme catalog: the Python dict of name → `Theme`, modelled as an
association list so that through-the-alias mutation can be expressed. -/
abbrev Catalog := List (String × Theme)

/-- `caption_engine.themes.DEFAULT_THEMES`. -/
def DEFAULT_THEMES : Catalog :=
  [("hormozi", THEME_HORMOZI), ("beast", THEME_BEAST), ("clean", THEME_CLEAN),
   ("neon", THEME_NEON), ("minimal", THEME_MINIMAL), ("bold", THEME_BOLD),
   ("gradient", THEME_GRADIENT), ("sara", THEME_SARA)]

/-- Overwrite the entry stored under `key` (models mutation of the object
aliased by a catalog lookup). -/
def catUpdate (cat : Catalog) (key : String) (t : Theme) : Catalog :=
  cat.map (fun p => if p.1 = key then (p.1, t) else p)

/-- `caption_engine.themes.get_theme`: case-insensitive lookup, `ValueError`
on unknown names. The catalog is an explicit argument (Python reads the
module-global `DEFAULT_THEMES`). -/
def get_theme (cat : Catalog) (name : String) : Except String Theme :=
  match cat.lookup (pyLower name) with
  | some t => Except.ok t
  | Option.none => Except.error ("Unknown theme: " ++ name ++
      ". Available: " ++ pyStrList (cat.map Prod.fst))

/-- `caption_engine.animations.no_animation`. -/
def no_animation (words : List Word) (theme : Theme) : String :=
  let text := String.intercalate " " (words.map (fun w => escape_ass_text w.text))
  if theme.uppercase then pyUpper text else text

/-- An ASS override block: the tag text wrapped in braces. -/
def ovr (s : String) : String := lbraceS ++ s ++ rbraceS

/-- `caption_engine.animations.karaoke_animation`: wraps each word in a
smooth-fill karaoke tag with the word duration in centiseconds.  The Python
body also computes `hex_to_ass_color(theme.highlight_color)` into an unused
local, which can raise; that effect is preserved. -/
def karaoke_animation (words : List Word) (theme : Theme) : Except String String := do
  let _highlight_color <- hex_to_ass_color theme.highlight_color
  let parts := words.map (fun w =>
    let text := escape_ass_text w.text
    let text := if theme.uppercase then pyUpper text else text
    ovr ("\\kf" ++ toString w.duration_cs) ++ text)
  pure (String.intercalate " " parts)

/-- `caption_engine.animations.bounce_animation`. -/
def bounce_animation (words : List Word) (theme : Theme) : String :=
  let parts := (List.range words.length).zip words |>.map (fun p =>
    let i : ℕ := p.1
    let w : Word := p.2
    let text := escape_ass_text w.text
    let text := if theme.uppercase then pyUpper text else text
    let delay : ℕ := i * 50
    let bounce_duration : ℕ := 200
    ovr ("\\fscx80\\fscy80" ++
        "\\t(" ++ toString delay ++ "," ++ toString (delay + bounce_duration) ++
          ",\\fscx110\\fscy110)" ++
        "\\t(" ++ toString (delay + bounce_duration) ++ "," ++
          toString (delay + bounce_duration + 100) ++ ",\\fscx100\\fscy100)") ++
      text)
  String.intercalate " " parts

/-- `caption_engine.animations.pop_sequential` (registered under "pop"). -/
def pop_sequential (words : List Word) (theme : Theme) : String :=
  let line_start : Rat :=
    match words with
    | [] => 0
    | w :: _ => w.start
  let parts := words.map (fun w =>
    let text := escape_ass_text w.text
    let text := if theme.uppercase then pyUpper text else text
    let relative_start_ms : Int := pyint ((w.start - line_start) * 1000)
    let pop_up : Int := 100
    let settle : Int := 80
    ovr ("\\fscx0\\fscy0" ++
        "\\t(0," ++ toString relative_start_ms ++ ",\\fscx0\\fscy0)" ++
        "\\t(" ++ toString relative_start_ms ++ "," ++
          toString (relative_start_ms + pop_up) ++ ",\\fscx115\\fscy115)" ++
        "\\t(" ++ toString (relative_start_ms + pop_up) ++ "," ++
          toString (relative_start_ms + pop_up + settle) ++ ",\\fscx100\\fscy100)") ++
      text)
  String.intercalate " " parts

/-- `caption_engine.animations.glow_animation`. -/
def glow_animation (words : List Word) (theme : Theme) : Except String String := do
  let highlight_color <- hex_to_ass_color theme.highlight_color
  let text_color <- hex_to_ass_color theme.text_color
  let parts := (List.range words.length).zip words |>.map (fun p =>
    let i : ℕ := p.1
    let w : Word := p.2
    let text := escape_ass_text w.text
    let text := if theme.uppercase then pyUpper text else text
    let pulse_in : ℕ := 150
    let pulse_out : ℕ := 150
    let delay : ℕ := i * 100
    ovr ("\\blur0\\bord" ++ toString theme.outline_width ++
        "\\t(" ++ toString delay ++ "," ++ toString (delay + pulse_in) ++
          ",\\blur3\\bord" ++ toString (theme.outline_width + 2) ++ "\\c" ++
          highlight_color ++ ")" ++
        "\\t(" ++ toString (delay + pulse_in) ++ "," ++
          toString (delay + pulse_in + pulse_out) ++ ",\\blur0\\bord" ++
          toString theme.outline_width ++ "\\c" ++ text_color ++ ")") ++
      text)
  pure (String.intercalate " " parts)

/-- `caption_engine.animations.wave_animation`. -/
def wave_animation (words : List Word) (theme : Theme) : String :=
  let parts := (List.range words.length).zip words |>.map (fun p =>
    let i : ℕ := p.1
    let w : Word := p.2
    let text := escape_ass_text w.text
    let text := if theme.uppercase then pyUpper text else text
    let wave_offset : ℕ := i * 100
    let wave_up : ℕ := 200
    let wave_down : ℕ := 200
    ovr ("\\fscy100" ++
        "\\t(" ++ toString wave_offset ++ "," ++ toString (wave_offset + wave_up) ++
          ",\\fscy110)" ++
        "\\t(" ++ toString (wave_offset + wave_up) ++ "," ++
          toString (wave_offset + wave_up + wave_down) ++ ",\\fscy100)") ++
      text)
  String.intercalate " " parts

/-- `caption_engine.animations.typewriter_animation`. -/
def typewriter_animation (words : List Word) (theme : Theme) : String :=
  let line_start : Rat :=
    match words with
    | [] => 0
    | w :: _ => w.start
  let parts := words.map (fun w =>
    let text := escape_ass_text w.text
    let text := if theme.uppercase then pyUpper text else text
    let relative_start_ms : Int := pyint ((w.start - line_start) * 1000)
    let fade_duration : Int := 50
    ovr ("\\alpha&HFF" ++
        "\\t(0," ++ toString relative_start_ms ++ ",\\alpha&HFF)" ++
        "\\t(" ++ toString relative_start_ms ++ "," ++
          toString (relative_start_ms + fade_duration) ++ ",\\alpha&H00)") ++
      text)
  String.intercalate " " parts

/-- The type of animation functions as used by the builder (all lifted to
`Except` because `karaoke_animation`/`glow_animation` can raise on malformed
theme colors). -/
abbrev AnimFun := List Word -> Theme -> Except String String

/-- The keys of `caption_engine.animations.ANIMATIONS`, in dict order. -/
def ANIMATIONS_keys : List String :=
  ["none", "karaoke", "bounce", "pop", "glow", "wave", "typewriter"]

/-- Lookup in the `caption_engine.animations.ANIMATIONS` registry. -/
def ANIMATIONS_lookup (key : String) : Option AnimFun :=
  if key = "none" then some (fun w t => Except.ok (no_animation w t))
  else if key = "karaoke" then some karaoke_animation
  else if key = "bounce" then some (fun w t => Except.ok (bounce_animation w t))
  else if key = "pop" then some (fun w t => Except.ok (pop_sequential w t))
  else if key = "glow" then some glow_animation
  else if key = "wave" then some (fun w t => Except.ok (wave_animation w t))
  else if key = "typewriter" then some (fun w t => Except.ok (typewriter_animation w t))
  else Option.none

/-- The argument of `caption_engine.animations.get_animation`: either a raw
style-name string or an `AnimationStyle` enum member. -/
inductive StyleRef where
  | str (s : String)
  | style (a : AnimationStyle)

/-- `caption_engine.animations.get_animation`: registry lookup,
`ValueError` for unknown style names. -/
def get_animation (style : StyleRef) : Except String AnimFun :=
  let style_lower :=
    match style with
    | .str s => pyLower s
    | .style a => a.value
  match ANIMATIONS_lookup style_lower with
  | some f => Except.ok f
  | Option.none =>
      let shown :=
        match style with
        | .str s => s
        | .style a => a.pyStr
      Except.error ("Unknown animation style: " ++ shown ++
        ". Available: " ++ pyStrList ANIMATIONS_keys)

/-- `ASSBuilder.build_header` (for a builder constructed with the given
width, height and default title). -/
def build_header (width height : Int) (title : String) : String :=
  "[Script Info]\nTitle: " ++ title ++
  "\nScriptType: v4.00+\nWrapStyle: 0\nScaledBorderAndShadow: yes\nYCbCr Matrix: TV.601\nPlayResX: " ++
  toString width ++ "\nPlayResY: " ++ toString height ++ "\n"

/-- `ASSBuilder.build_style`: one V4+ Style row from a theme (raises on
malformed theme colors). -/
def build_style (height : Int) (theme : Theme) (style_name : String) :
    Except String String := do
  let primary_color <- hex_to_ass_color theme.text_color
  let secondary_color <- hex_to_ass_color theme.highlight_color
  let outline_color <- hex_to_ass_color theme.outline_color
  let shadow_color <- hex_to_ass_color theme.shadow_color
  let bold : Int := if calculate_font_bold theme.font_weight then -1 else 0
  let italic : Int := 0
  let underline : Int := 0
  let strikeout : Int := 0
  let scale_x : Int := 100
  let scale_y : Int := 100
  let spacing : Int := theme.letter_spacing
  let angle : Int := 0
  let border_style : Int := 1
  let outline : Int := theme.outline_width
  let shadow : Int := theme.shadow_offset
  let alignment : Int := alignment_to_ass theme.alignment.value theme.position_y
  let margin_l : Int := 20
  let margin_r : Int := 20
  let margin_v : Int := calculate_margin_v theme.position_y height
  let encoding : Int := 1
  pure ("Style: " ++ style_name ++ "," ++ theme.font_family ++ "," ++
    toString theme.font_size ++ "," ++
    primary_color ++ "," ++ secondary_color ++ "," ++ outline_color ++ "," ++
    shadow_color ++ "," ++
    toString bold ++ "," ++ toString italic ++ "," ++ toString underline ++ "," ++
    toString strikeout ++ "," ++
    toString scale_x ++ "," ++ toString scale_y ++ "," ++ toString spacing ++ "," ++
    toString angle ++ "," ++
    toString border_style ++ "," ++ toString outline ++ "," ++ toString shadow ++ "," ++
    toString alignment ++ "," ++ toString margin_l ++ "," ++ toString margin_r ++ "," ++
    toString margin_v ++ "," ++ toString encoding)

/-- `ASSBuilder.build_styles_section`. -/
def build_styles_section (styles : List String) : String :=
  "\n[V4+ Styles]\nFormat: Name, Fontname, Fontsize, PrimaryColour, SecondaryColour, OutlineColour, BackColour, Bold, Italic, Underline, StrikeOut, ScaleX, ScaleY, Spacing, Angle, BorderStyle, Outline, Shadow, Alignment, MarginL, MarginR, MarginV, Encoding" ++
  "\n" ++ String.intercalate "\n" styles

/-- `ASSBuilder.build_dialogue_line`. -/
def build_dialogue_line (text : String) (start end_ : Rat) (style : String)
    (layer : Int) (margin_l margin_r margin_v : Int) (effect : String) : String :=
  "Dialogue: " ++ toString layer ++ "," ++ seconds_to_ass_time start ++ "," ++
    seconds_to_ass_time end_ ++ "," ++ style ++ ",," ++
    toString margin_l ++ "," ++ toString margin_r ++ "," ++ toString margin_v ++ "," ++
    effect ++ "," ++ text

/-- `ASSBuilder.build_events_section`. -/
def build_events_section (dialogues : List String) : String :=
  "\n[Events]\nFormat: Layer, Start, End, Style, Name, MarginL, MarginR, MarginV, Effect, Text" ++
  "\n" ++ String.intercalate "\n" dialogues

/-- `ASSBuilder.build`: header, style section and event section joined by
newlines (builder width/height fixed at construction, title default
"CaptionMagic"). -/
def ASSBuilder_build (width height : Int) (styles dialogues : List String) : String :=
  build_header width height "CaptionMagic" ++ "\n" ++
  build_styles_section styles ++ "\n" ++
  build_events_section dialogues

/-- `caption_engine.ass_builder.create_ass_from_lines`. -/
def create_ass_from_lines (lines : List CaptionLine) (theme : Theme)
    (video_width video_height : Int) : Except String String := do
  let style <- build_style video_height theme "Default"
  let animation_func <- get_animation (StyleRef.style theme.animation_style)
  let dialogues <- lines.mapM (fun line => do
    let animated_text <- animation_func line.words theme
    pure (build_dialogue_line animated_text line.start line.end_ "Default" 0 0 0 0 ""))
  pure (ASSBuilder_build video_width video_height [style] dialogues)

/-- A loosely-typed word record (`dict` with text/start/end and optional
confidence), as accepted by the generator ingress. -/
structure WordDict where
  text : String
  start : Rat
  end_ : Rat
  confidence : Option Rat := Option.none
deriving DecidableEq, Repr

/-- One element of the generator word-list argument: a canonical `Word` or a
loose dict record. -/
inductive WordInput where
  | word (w : Word)
  | dict (d : WordDict)
deriving DecidableEq, Repr

/-- `caption_engine.generator._normalize_words`. -/
def _normalize_words (words : List WordInput) : List Word :=
  words.map (fun wi =>
    match wi with
    | .word w => w
    | .dict d => { text := d.text, start := d.start, end_ := d.end_,
                   confidence := d.confidence.getD 1 })

/-- `caption_engine.generator.GeneratorConfig` (defaults from the source). -/
structure GeneratorConfig where
  video_width : Int := 1920
  video_height : Int := 1080
  words_per_line : Option Int := Option.none
  max_chars_per_line : Option Int := Option.none
  animation_style : Option AnimationStyle := Option.none
  position_y : Option Int := Option.none
  add_padding : Rat := 1 / 10
deriving Repr

/-- The `theme` argument of `generate_ass`: a `Theme` value or a catalog
name.  (The source also accepts a raw field dict via `Theme.from_dict`;
that ingress path is not exercised by the claims and is not modelled.) -/
inductive ThemeRef where
  | theme (t : Theme)
  | name (s : String)

/-- `caption_engine.generator._resolve_theme`. -/
def _resolve_theme (cat : Catalog) : ThemeRef → Except String Theme
  | .theme t => Except.ok t
  | .name s => get_theme cat s

/-- `caption_engine.generator._apply_config_overrides`: the source deep-
copies the theme before assigning, so this is a pure record update. -/
def _apply_config_overrides (theme : Theme) (config : GeneratorConfig) : Theme :=
  let theme := match config.words_per_line with
    | some n => { theme with words_per_line := n }
    | Option.none => theme
  let theme := match config.max_chars_per_line with
    | some n => { theme with max_chars_per_line := n }
    | Option.none => theme
  let theme := match config.animation_style with
    | some a => { theme with animation_style := a }
    | Option.none => theme
  let theme := match config.position_y with
    | some y => { theme with position_y := y }
    | Option.none => theme
  theme

/-- Per-word body of the `_add_line_padding` loop: pad the first word's
start and the last word's end, then clamp the start at 0 (the clamp is
applied to every word).  `n` is the line's word count, `j` the word index. -/
def padWord (padding : Rat) (n j : ℕ) (w : Word) : Word :=
  { text := w.text,
    start := max 0 (if j = 0 then w.start - padding else w.start),
    end_ := if j = n - 1 then w.end_ + padding else w.end_,
    confidence := w.confidence }

/-- `enumerate`-style traversal used by `_add_line_padding`. -/
def padWordsFrom (padding : Rat) (n : ℕ) : ℕ → List Word → List Word
  | _, [] => []
  | j, w :: rest => padWord padding n j w :: padWordsFrom padding n (j + 1) rest

/-- `caption_engine.generator._add_line_padding`. -/
def _add_line_padding (lines : List CaptionLine) (padding : Rat) : List CaptionLine :=
  lines.map (fun line => ⟨padWordsFrom padding line.words.length 0 line.words⟩)

/-- `caption_engine.generator.generate_ass`.  The theme catalog (module
state read by `get_theme`) is passed explicitly and returned, so that
call-spanning state effects are visible; this path never writes it. -/
def generate_ass (cat : Catalog) (words : List WordInput) (theme : ThemeRef)
    (video_width : Int := 1920) (video_height : Int := 1080)
    (config : Option GeneratorConfig := Option.none) :
    Except String String × Catalog :=
  let config := config.getD { video_width := video_width, video_height := video_height }
  (do
    let resolved_theme <- _resolve_theme cat theme
    let resolved_theme := _apply_config_overrides resolved_theme config
    let word_objects := _normalize_words words
    let lines := group_words_into_lines word_objects
      resolved_theme.words_per_line resolved_theme.max_chars_per_line
    let lines := if config.add_padding > 0 then _add_line_padding lines config.add_padding
      else lines
    create_ass_from_lines lines resolved_theme config.video_width config.video_height,
   cat)

/-- `caption_engine.ass_builder.create_simple_ass`.  `get_theme` returns the
catalog's own `Theme` object; the subsequent truthiness-guarded assignments
mutate that shared object, so the (possibly updated) catalog is returned
alongside the result. -/
def create_simple_ass (cat : Catalog) (words : List WordDict)
    (theme_name : String := "hormozi") (video_width : Int := 1920)
    (video_height : Int := 1080) (words_per_line : Option Int := Option.none)
    (max_chars_per_line : Option Int := Option.none) :
    Except String String × Catalog :=
  match get_theme cat theme_name with
  | Except.error e => (Except.error e, cat)
  | Except.ok theme0 =>
    let key := pyLower theme_name
    let st1 : Theme × Catalog :=
      match words_per_line with
      | some n => if n ≠ 0 then
          let t := { theme0 with words_per_line := n }
          (t, catUpdate cat key t)
        else (theme0, cat)
      | Option.none => (theme0, cat)
    let st2 : Theme × Catalog :=
      match max_chars_per_line with
      | some n => if n ≠ 0 then
          let t := { st1.1 with max_chars_per_line := n }
          (t, catUpdate st1.2 key t)
        else st1
      | Option.none => st1
    let theme := st2.1
    let word_objects := words.map (fun w =>
      Word.mk w.text w.start w.end_ (w.confidence.getD 1))
    let lines := group_words_into_lines word_objects
      theme.words_per_line theme.max_chars_per_line
    (create_ass_from_lines lines theme video_width video_height, st2.2)

/-! ## Helper lemmas -/

theorem isPrefixOf_append_right (n b : List Char) : n.isPrefixOf (n ++ b) = true := by
  induction n with
  | nil => cases b <;> rfl
  | cons c rest ih => simp [List.isPrefixOf, ih]

theorem containsSubL_of_isPrefixOf (n l : List Char) (h : n.isPrefixOf l = true) :
    containsSubL n l = true := by
  cases l with
  | nil => simpa [containsSubL] using h
  | cons c rest => simp [containsSubL, h]

theorem containsSubL_sandwich (a n b : List Char) :
    containsSubL n (a ++ (n ++ b)) = true := by
  induction a with
  | nil =>
      exact containsSubL_of_isPrefixOf n (n ++ b) (isPrefixOf_append_right n b)
  | cons c rest ih => simp [containsSubL, ih]

theorem containsStr_of_toList_sandwich (s name : String) (a b : List Char)
    (h : s.toList = a ++ (name.toList ++ b)) : containsStr s name = true := by
  unfold containsStr
  rw [h]
  exact containsSubL_sandwich a name.toList b

/-! ## Claim theorems -/

/-- C10: `alignment_to_ass` always returns a grid code in 1..9, and every
alignment string other than "left" and "right" (including unknown values)
is treated exactly like "center" rather than rejected. -/
theorem alignment_to_ass_total_center_default (alignment : String) (position_y : ℤ) :
    (1 ≤ alignment_to_ass alignment position_y ∧
      alignment_to_ass alignment position_y ≤ 9) ∧
    (alignment ≠ "left" → alignment ≠ "right" →
      alignment_to_ass alignment position_y = alignment_to_ass "center" position_y) := by
  constructor
  · simp only [alignment_to_ass]
    split_ifs <;> omega
  · intro h1 h2
    simp only [alignment_to_ass]
    rw [if_neg h1, if_neg h2,
      if_neg (show ¬(("center" : String) = "left") from by decide),
      if_neg (show ¬(("center" : String) = "right") from by decide)]

/-- Witness for C10 at a concrete unknown alignment string. -/
theorem alignment_to_ass_total_center_default_witness :
    (1 ≤ alignment_to_ass "wonky" 50 ∧ alignment_to_ass "wonky" 50 ≤ 9) ∧
    alignment_to_ass "wonky" 50 = alignment_to_ass "center" 50 :=
  ⟨(alignment_to_ass_total_center_default "wonky" 50).1,
   (alignment_to_ass_total_center_default "wonky" 50).2 (by decide) (by decide)⟩

/-- C7: resolving an unknown theme name (`get_theme`) or an unknown
animation style name (`get_animation`) yields a `ValueError` whose message
contains the unknown value itself; no default is silently substituted. -/
theorem unknown_theme_or_animation_is_error :
    (∀ name : String, DEFAULT_THEMES.lookup (pyLower name) = Option.none →
      ∃ msg, get_theme DEFAULT_THEMES name = Except.error msg ∧
        containsStr msg name = true) ∧
    (∀ style : String, (ANIMATIONS_lookup (pyLower style)).isNone = true →
      ∃ msg, get_animation (StyleRef.str style) = Except.error msg ∧
        containsStr msg style = true) := by
  constructor
  · intro name h
    refine ⟨"Unknown theme: " ++ name ++ ". Available: " ++
      pyStrList (DEFAULT_THEMES.map Prod.fst), ?_, ?_⟩
    · unfold get_theme
      rw [h]
    · exact containsStr_of_toList_sandwich _ name ("Unknown theme: ").toList
        ((". Available: " ++ pyStrList (DEFAULT_THEMES.map Prod.fst)).toList)
        (by simp)
  · intro style h
    cases hA : ANIMATIONS_lookup (pyLower style) with
    | some f => rw [hA] at h; simp at h
    | none =>
        refine ⟨"Unknown animation style: " ++ style ++ ". Available: " ++
          pyStrList ANIMATIONS_keys, ?_, ?_⟩
        · simp only [get_animation]
          rw [hA]
        · exact containsStr_of_toList_sandwich _ style
            ("Unknown animation style: ").toList
            ((". Available: " ++ pyStrList ANIMATIONS_keys).toList) (by simp)

/-- Witness for C7 at the unknown names "nosuchtheme" and "spin". -/
theorem unknown_theme_or_animation_is_error_witness :
    (∃ msg, get_theme DEFAULT_THEMES "nosuchtheme" = Except.error msg ∧
      containsStr msg "nosuchtheme" = true) ∧
    (∃ msg, get_animation (StyleRef.str "spin") = Except.error msg ∧
      containsStr msg "spin" = true) :=
  ⟨unknown_theme_or_animation_is_error.1 "nosuchtheme" (by decide),
   unknown_theme_or_animation_is_error.2 "spin" (by decide)⟩

/-- C5 (code bug): `create_simple_ass` with a `words_per_line` override
permanently rewrites the shared catalog preset through the alias returned
by `get_theme`: after the call, `DEFAULT_THEMES["hormozi"].words_per_line`
is 5, while it was 3 before. -/
theorem create_simple_ass_mutates_preset :
    ((create_simple_ass DEFAULT_THEMES [⟨"Hi", 0, 1, Option.none⟩] "hormozi"
        1920 1080 (some 5) Option.none).2.lookup "hormozi").map
        Theme.words_per_line = some 5 ∧
    (DEFAULT_THEMES.lookup "hormozi").map Theme.words_per_line = some 3 := by
  constructor <;> with_unfolding_all rfl

/-- C6: `generate_ass` neither reads mutable state other than the theme
catalog nor writes any: it leaves the catalog unchanged, and a second call
with identical inputs (observing the state left by the first call) returns
the identical output string. -/
theorem generate_ass_deterministic (cat : Catalog) (words : List WordInput)
    (theme : ThemeRef) (video_width video_height : Int)
    (config : Option GeneratorConfig) :
    (generate_ass cat words theme video_width video_height config).2 = cat ∧
    (generate_ass (generate_ass cat words theme video_width video_height config).2
        words theme video_width video_height config).1 =
      (generate_ass cat words theme video_width video_height config).1 :=
  ⟨rfl, rfl⟩

set_option maxRecDepth 100000 in
/-- C4 (counterexample): on the words Hello[0,0.4]/world[0.4,0.8] with theme
"hormozi" at 1080x1920, the generated output does not contain the claimed
end timestamp `0:00:00.80` at all, and contains only one (not two)
karaoke tags with a 40-centisecond fill. -/
theorem generate_ass_hormozi_claim_false :
    ((generate_ass DEFAULT_THEMES
        [WordInput.dict ⟨"Hello", 0, 2 / 5, Option.none⟩,
         WordInput.dict ⟨"world", 2 / 5, 4 / 5, Option.none⟩]
        (ThemeRef.name "hormozi") 1080 1920 Option.none).1).map
      (fun s => (containsStr s "0:00:00.80", countSub s (ovr "\\kf40"))) =
      Except.ok (false, 1) := by
  with_unfolding_all rfl

set_option maxRecDepth 100000 in
/-- C4 (amended): on the same input the output has exactly one `Dialogue:`
row, spanning `0:00:00.00` to `0:00:00.90` (the default 0.1 s line padding
extends the last word), referencing style `Default`, and its text carries
karaoke fill tags `\kf40` and `\kf50` with both words upper-cased. -/
theorem generate_ass_hormozi_example :
    ((generate_ass DEFAULT_THEMES
        [WordInput.dict ⟨"Hello", 0, 2 / 5, Option.none⟩,
         WordInput.dict ⟨"world", 2 / 5, 4 / 5, Option.none⟩]
        (ThemeRef.name "hormozi") 1080 1920 Option.none).1).map
      (fun s =>
        (countSub s "Dialogue:",
         containsStr s "Dialogue: 0,0:00:00.00,0:00:00.90,Default,,0,0,0,,",
         containsStr s (ovr "\\kf40" ++ "HELLO " ++ ovr "\\kf50" ++ "WORLD"))) =
      Except.ok (1, true, true) := by
  with_unfolding_all rfl

/-- The timestamp format described by the specification for
`secondsToDocTime`, stated over the total number of centiseconds (the
fractional part truncated, i.e. floored for non-negative input):
`hours:minutes:seconds.centiseconds` with unpadded hours and two-digit
zero-padded minutes, seconds and centiseconds. -/
def secondsToDocTimeSpec (q : ℚ) : String :=
  let n : ℕ := ⌊100 * q⌋₊
  Nat.repr (n / 360000) ++ ":" ++ pad2Nat (n / 6000 % 60) ++ ":" ++
    pad2Nat (n / 100 % 60) ++ "." ++ pad2Nat (n % 100)

theorem toString_natCast_int (k : ℕ) : toString ((k : ℤ)) = Nat.repr k := rfl

theorem pad2_natCast (k : ℕ) : pad2 ((k : ℕ) : ℤ) = pad2Nat k := by
  unfold pad2 pad2Nat
  by_cases hk : k < 10
  · rw [if_pos ⟨Int.natCast_nonneg k, by exact_mod_cast hk⟩, if_pos hk,
      toString_natCast_int]
  · rw [if_neg (fun hc => hk (by exact_mod_cast hc.2)), if_neg hk,
      toString_natCast_int]

/-- Idealization lemma: on its exact operand, `seconds_to_ass_time`
renders precisely the documented format — unpadded hours, two-digit
minutes, seconds and centiseconds, the total centisecond count being the
operand truncated (not rounded) to centiseconds.  The examples here feed
the exact decimal fractions; the running program cannot pass `3723.45`
exactly (see `seconds_to_ass_time_float_example` for what it does pass). -/
theorem seconds_to_ass_time_correct :
    seconds_to_ass_time 0 = "0:00:00.00" ∧
    seconds_to_ass_time (131 / 2) = "0:01:05.50" ∧
    seconds_to_ass_time (372345 / 100) = "1:02:03.45" ∧
    ∀ q : ℚ, 0 ≤ q → seconds_to_ass_time q = secondsToDocTimeSpec q := by
  refine ⟨by with_unfolding_all rfl, by with_unfolding_all rfl,
    by with_unfolding_all rfl, ?_⟩
  intro q hq
  have hq36 : (0 : ℚ) ≤ q / 3600 := by positivity
  have h100q : (0 : ℚ) ≤ 100 * q := by positivity
  set N : ℕ := ⌊q⌋₊ with hN
  set n : ℕ := ⌊100 * q⌋₊ with hn
  set m36 : ℕ := N / 3600 with hm36
  set m60 : ℕ := N / 60 with hm60
  -- the floor of `q` in terms of the centisecond count
  have hNn : N = n / 100 := by
    have hq' : q = (100 * q) / ((100 : ℕ) : ℚ) := by push_cast; ring
    calc N = ⌊(100 * q) / ((100 : ℕ) : ℚ)⌋₊ := by rw [hN, ← hq']
    _ = n / 100 := by rw [Nat.floor_div_nat, hn]
  -- hours
  have hH : ⌊q / 3600⌋ = ((m36 : ℕ) : ℤ) := by
    rw [← Int.natCast_floor_eq_floor hq36]
    congr 1
    rw [show (3600 : ℚ) = ((3600 : ℕ) : ℚ) by norm_num, Nat.floor_div_nat,
      ← hN, hm36]
  -- minutes
  have hqmod3600 : qmod q 3600 = q - ((3600 * m36 : ℕ) : ℚ) := by
    unfold qmod
    rw [hH]
    push_cast
    ring
  have hx0 : (0 : ℚ) ≤ qmod q 3600 := by
    unfold qmod
    have h1 : ((⌊q / 3600⌋ : ℤ) : ℚ) ≤ q / 3600 := Int.floor_le _
    nlinarith
  have hfx : ⌊qmod q 3600⌋ = ((N : ℤ) - ((3600 * m36 : ℕ) : ℤ)) := by
    rw [hqmod3600, Int.floor_sub_nat, ← Int.natCast_floor_eq_floor hq, ← hN]
  have hmin : ⌊qmod q 3600 / 60⌋ = ((N % 3600 / 60 : ℕ) : ℤ) := by
    rw [← Int.natCast_floor_eq_floor (div_nonneg hx0 (by norm_num))]
    congr 1
    rw [show (60 : ℚ) = ((60 : ℕ) : ℚ) by norm_num, Nat.floor_div_nat]
    congr 1
    rw [← Int.floor_toNat, hfx]
    omega
  -- seconds
  have hH60 : ⌊q / 60⌋ = ((m60 : ℕ) : ℤ) := by
    rw [← Int.natCast_floor_eq_floor (by positivity : (0 : ℚ) ≤ q / 60)]
    congr 1
    rw [show (60 : ℚ) = ((60 : ℕ) : ℚ) by norm_num, Nat.floor_div_nat,
      ← hN, hm60]
  have hsec : ⌊qmod q 60⌋ = ((N % 60 : ℕ) : ℤ) := by
    have hqmod60 : qmod q 60 = q - ((60 * m60 : ℕ) : ℚ) := by
      unfold qmod
      rw [hH60]
      push_cast
      ring
    rw [hqmod60, Int.floor_sub_nat, ← Int.natCast_floor_eq_floor hq, ← hN]
    omega
  -- centiseconds
  have hcent : ⌊qmod q 1 * 100⌋ = ((n % 100 : ℕ) : ℤ) := by
    have hqmod1 : qmod q 1 * 100 = 100 * q - ((100 * N : ℕ) : ℚ) := by
      unfold qmod
      rw [div_one, ← Int.natCast_floor_eq_floor hq, ← hN]
      push_cast
      ring
    rw [hqmod1, Int.floor_sub_nat, ← Int.natCast_floor_eq_floor h100q, ← hn]
    omega
  -- assemble both sides
  simp only [seconds_to_ass_time, secondsToDocTimeSpec, hH, hmin, hsec, hcent]
  rw [← hn, toString_natCast_int, pad2_natCast, pad2_natCast, pad2_natCast,
    show m36 = n / 360000 by omega,
    show N % 3600 / 60 = n / 6000 % 60 by omega,
    show N % 60 = n / 100 % 60 by omega]

/-- The idealization lemma applied at 372.5 seconds (a value the program
stores exactly). -/
theorem seconds_to_ass_time_correct_witness :
    (0 : ℚ) ≤ 745 / 2 ∧
    seconds_to_ass_time (745 / 2) = secondsToDocTimeSpec (745 / 2) ∧
    secondsToDocTimeSpec (745 / 2) = "0:06:12.50" :=
  ⟨by norm_num, seconds_to_ass_time_correct.2.2.2 (745 / 2) (by norm_num),
   by with_unfolding_all rfl⟩

/-- C2 (code bug): `seconds_to_ass_time` evaluated on the operands the
float program actually receives.  `0` and `65.5` are exactly representable
doubles and give the documented strings, but the IEEE-754 double stored
for the literal `3723.45` is `8187953140885094 / 2^41`, which lies
`1/5497558138880` below the decimal value; truncating its fractional part
yields 44 centiseconds, so the program prints `"1:02:03.44"` — not the
`"1:02:03.45"` asserted by the claim and by the function's own docstring
example.  (At these inputs every intermediate float operation is exact, so
this exact-rational evaluation coincides with the program.) -/
theorem seconds_to_ass_time_float_example :
    seconds_to_ass_time 0 = "0:00:00.00" ∧
    seconds_to_ass_time (131 / 2) = "0:01:05.50" ∧
    seconds_to_ass_time (8187953140885094 / 2199023255552) = "1:02:03.44" ∧
    ¬(seconds_to_ass_time (8187953140885094 / 2199023255552) = "1:02:03.45") := by
  refine ⟨by with_unfolding_all rfl, by with_unfolding_all rfl,
    by with_unfolding_all rfl, by with_unfolding_all decide⟩

theorem int16_two (c1 c2 : Char) (v1 v2 : ℕ) (h1 : hexVal c1 = some v1)
    (h2 : hexVal c2 = some v2) : int16 [c1, c2] = Except.ok (16 * v1 + v2) := by
  unfold int16 int16Core
  simp [List.foldl, h1, h2]

theorem hexVal_ne_hash (c : Char) (v : ℕ) (h : hexVal c = some v) : ¬(c = '#') := by
  intro he
  rw [he, show hexVal '#' = Option.none from by decide] at h
  exact Option.noConfusion h

theorem dropWhile_hash (d : List Char) (c : Char) (hc : ¬(c = '#')) :
    List.dropWhile (fun x => x = '#') ('#' :: c :: d) = c :: d := by
  simp [List.dropWhile_cons, hc]

/-- C3: `hex_to_ass_color` on well-formed inputs: its three documented
examples hold; a `#RRGGBB` input made of six hex digits parses the three
bytes and emits `&H00` followed by the B, G, R bytes as two uppercase hex
digits each; a `#RGB` shorthand doubles each digit (byte value `17·v`)
before the same conversion. -/
theorem hex_to_ass_color_correct :
    (hex_to_ass_color "#FFFFFF" = Except.ok "&H00FFFFFF") ∧
    (hex_to_ass_color "#FF0000" = Except.ok "&H000000FF") ∧
    (hex_to_ass_color "#00FF00" = Except.ok "&H0000FF00") ∧
    (∀ d1 d2 d3 d4 d5 d6 : Char, ∀ v1 v2 v3 v4 v5 v6 : ℕ,
      hexVal d1 = some v1 → hexVal d2 = some v2 → hexVal d3 = some v3 →
      hexVal d4 = some v4 → hexVal d5 = some v5 → hexVal d6 = some v6 →
      hex_to_ass_color (String.mk ['#', d1, d2, d3, d4, d5, d6]) =
        Except.ok ("&H00" ++ hex2X (16 * v5 + v6) ++ hex2X (16 * v3 + v4) ++
          hex2X (16 * v1 + v2))) ∧
    (∀ d1 d2 d3 : Char, ∀ v1 v2 v3 : ℕ,
      hexVal d1 = some v1 → hexVal d2 = some v2 → hexVal d3 = some v3 →
      hex_to_ass_color (String.mk ['#', d1, d2, d3]) =
        Except.ok ("&H00" ++ hex2X (17 * v3) ++ hex2X (17 * v2) ++
          hex2X (17 * v1))) := by
  refine ⟨by with_unfolding_all rfl, by with_unfolding_all rfl,
    by with_unfolding_all rfl, ?_, ?_⟩
  · intro d1 d2 d3 d4 d5 d6 v1 v2 v3 v4 v5 v6 h1 h2 h3 h4 h5 h6
    have hs : (String.mk ['#', d1, d2, d3, d4, d5, d6]).toList =
        ['#', d1, d2, d3, d4, d5, d6] := rfl
    simp only [hex_to_ass_color, hs]
    rw [dropWhile_hash [d2, d3, d4, d5, d6] d1 (hexVal_ne_hash d1 v1 h1)]
    rw [if_neg (show ¬([d1, d2, d3, d4, d5, d6].length = 3) from by simp)]
    simp only [List.take_succ_cons, List.take_zero, List.drop_succ_cons,
      List.drop_zero]
    rw [int16_two d1 d2 v1 v2 h1 h2, int16_two d3 d4 v3 v4 h3 h4,
      int16_two d5 d6 v5 v6 h5 h6]
    rfl
  · intro d1 d2 d3 v1 v2 v3 h1 h2 h3
    have hs : (String.mk ['#', d1, d2, d3]).toList = ['#', d1, d2, d3] := rfl
    have e : ∀ v : ℕ, 16 * v + v = 17 * v := fun v => by ring
    simp only [hex_to_ass_color, hs]
    rw [dropWhile_hash [d2, d3] d1 (hexVal_ne_hash d1 v1 h1)]
    rw [if_pos (show [d1, d2, d3].length = 3 from by simp)]
    simp only [List.flatMap_cons, List.flatMap_nil, List.append_nil,
      List.cons_append, List.nil_append]
    simp only [List.take_succ_cons, List.take_zero, List.drop_succ_cons,
      List.drop_zero]
    rw [int16_two d1 d1 v1 v1 h1 h1, int16_two d2 d2 v2 v2 h2 h2,
      int16_two d3 d3 v3 v3 h3 h3, e v1, e v2, e v3]
    rfl

/-- Witness for C3 on the lowercase six-digit input "#a1b2c3". -/
theorem hex_to_ass_color_correct_witness :
    hex_to_ass_color (String.mk ['#', 'a', '1', 'b', '2', 'c', '3']) =
      Except.ok ("&H00" ++ hex2X (16 * 12 + 3) ++ hex2X (16 * 11 + 2) ++
        hex2X (16 * 10 + 1)) :=
  hex_to_ass_color_correct.2.2.2.1 'a' '1' 'b' '2' 'c' '3' 10 1 11 2 12 3
    (by decide) (by decide) (by decide) (by decide) (by decide) (by decide)

/-- The running character count the segmenter attributes to a line:
each word contributes its length plus one (the separating space). -/
def charsOf (ws : List Word) : ℤ :=
  (ws.map (fun w => (w.text.length : ℤ) + 1)).sum

/-- Length of the line text when the words are joined by single spaces. -/
def joinedLen (ws : List Word) : ℤ :=
  (ws.map (fun w => (w.text.length : ℤ))).sum + ((ws.length : ℤ) - 1)

theorem charsOf_append_singleton (ws : List Word) (w : Word) :
    charsOf (ws ++ [w]) = charsOf ws + ((w.text.length : ℤ) + 1) := by
  simp [charsOf]

theorem charsOf_eq_sum_add_length (ws : List Word) :
    charsOf ws = (ws.map (fun w => (w.text.length : ℤ))).sum + ws.length := by
  induction ws with
  | nil => simp [charsOf]
  | cons w rest ih => simp [charsOf] at ih ⊢; omega

theorem joinedLen_append_singleton (ws : List Word) (w : Word) :
    joinedLen (ws ++ [w]) = charsOf ws + (w.text.length : ℤ) := by
  rw [joinedLen, charsOf_eq_sum_add_length]
  simp
  omega

/-- Well-formedness of one finished line: non-empty, within the word
budget (when that budget is at least 1), and, when it has at least two
words, within the character budget. -/
def lineOK (wpl mc : ℤ) (ws : List Word) : Prop :=
  ws ≠ [] ∧ (1 ≤ wpl → (ws.length : ℤ) ≤ wpl) ∧
    (2 ≤ ws.length → joinedLen ws ≤ mc)

theorem groupWordsGo_break (wpl mc : ℤ) (w : Word) (rest : List Word)
    (lines : List CaptionLine) (current : List Word) (chars : ℤ)
    (h : current ≠ [] ∧ ((current.length : ℤ) ≥ wpl ∨
      chars + (w.text.length : ℤ) + 1 > mc)) :
    groupWordsGo wpl mc (w :: rest) lines current chars =
      groupWordsGo wpl mc rest (lines ++ [⟨current⟩]) [w]
        ((w.text.length : ℤ) + 1) := by
  simp only [groupWordsGo]
  rw [if_pos h]

theorem groupWordsGo_add (wpl mc : ℤ) (w : Word) (rest : List Word)
    (lines : List CaptionLine) (current : List Word) (chars : ℤ)
    (h : ¬(current ≠ [] ∧ ((current.length : ℤ) ≥ wpl ∨
      chars + (w.text.length : ℤ) + 1 > mc))) :
    groupWordsGo wpl mc (w :: rest) lines current chars =
      groupWordsGo wpl mc rest lines (current ++ [w])
        (chars + (w.text.length : ℤ) + 1) := by
  simp only [groupWordsGo]
  rw [if_neg h]

theorem groupWordsGo_flush (wpl mc : ℤ) (lines : List CaptionLine)
    (current : List Word) (chars : ℤ) (h : current ≠ []) :
    groupWordsGo wpl mc [] lines current chars = lines ++ [⟨current⟩] := by
  simp only [groupWordsGo]
  rw [if_neg h]

theorem groupWordsGo_empty_flush (wpl mc : ℤ) (lines : List CaptionLine)
    (chars : ℤ) :
    groupWordsGo wpl mc [] lines [] chars = lines := by
  simp [groupWordsGo]

/-- Loop invariant soundness for the segmenter: every emitted line is
well-formed and the emitted lines concatenate to the processed input. -/
theorem groupWordsGo_sound (wpl mc : ℤ) (ws : List Word) :
    ∀ (lines : List CaptionLine) (current : List Word) (chars : ℤ),
    (∀ l ∈ lines, lineOK wpl mc l.words) →
    chars = charsOf current →
    (1 ≤ wpl → (current.length : ℤ) ≤ wpl) →
    (2 ≤ current.length → joinedLen current ≤ mc) →
    (∀ l ∈ groupWordsGo wpl mc ws lines current chars, lineOK wpl mc l.words) ∧
    ((groupWordsGo wpl mc ws lines current chars).map CaptionLine.words).flatten =
      (lines.map CaptionLine.words).flatten ++ current ++ ws := by
  induction ws with
  | nil =>
      intro lines current chars hlines hchars hcnt hjoin
      by_cases hcur : current = []
      · subst hcur
        rw [groupWordsGo_empty_flush]
        exact ⟨hlines, by simp⟩
      · rw [groupWordsGo_flush wpl mc lines current chars hcur]
        refine ⟨?_, by simp⟩
        intro l hl
        rcases List.mem_append.mp hl with h | h
        · exact hlines l h
        · have he : l = ⟨current⟩ := List.mem_singleton.mp h
          subst he
          exact ⟨hcur, hcnt, hjoin⟩
  | cons w rest ih =>
      intro lines current chars hlines hchars hcnt hjoin
      by_cases hcond : current ≠ [] ∧ ((current.length : ℤ) ≥ wpl ∨
          chars + (w.text.length : ℤ) + 1 > mc)
      · rw [groupWordsGo_break wpl mc w rest lines current chars hcond]
        have hlines2 : ∀ l ∈ lines ++ [CaptionLine.mk current],
            lineOK wpl mc l.words := by
          intro l hl
          rcases List.mem_append.mp hl with h | h
          · exact hlines l h
          · have he : l = ⟨current⟩ := List.mem_singleton.mp h
            subst he
            exact ⟨hcond.1, hcnt, hjoin⟩
        obtain ⟨ha, hb⟩ := ih (lines ++ [⟨current⟩]) [w] ((w.text.length : ℤ) + 1)
          hlines2 (by simp [charsOf]) (by intro h1; simp; omega)
          (by intro h2; simp at h2)
        refine ⟨ha, ?_⟩
        rw [hb]
        simp
      · rw [groupWordsGo_add wpl mc w rest lines current chars hcond]
        push_neg at hcond
        obtain ⟨ha, hb⟩ := ih lines (current ++ [w])
          (chars + (w.text.length : ℤ) + 1)
          hlines (by rw [charsOf_append_singleton, hchars]; ring)
          (by
            intro h1
            by_cases hc : current = []
            · subst hc; simp; omega
            · have h2 := (hcond hc).1
              simp only [List.length_append, List.length_cons, List.length_nil]
              push_cast
              omega)
          (by
            intro h2
            by_cases hc : current = []
            · subst hc; simp at h2
            · have h3 := (hcond hc).2
              rw [joinedLen_append_singleton]
              omega)
        refine ⟨ha, ?_⟩
        rw [hb]
        simp
  
/-- C1: for every input, `group_words_into_lines` emits non-empty lines
whose word sequences concatenate to exactly the input in order; when
`words_per_line ≥ 1` no line exceeds `words_per_line` words; no line of two
or more words has joined-text length exceeding `max_chars_per_line`; empty
input yields empty output. -/
theorem group_words_into_lines_correct (words : List Word) (wpl mc : ℤ) :
    group_words_into_lines [] wpl mc = [] ∧
    ((group_words_into_lines words wpl mc).map CaptionLine.words).flatten = words ∧
    ∀ l ∈ group_words_into_lines words wpl mc,
      l.words ≠ [] ∧ (1 ≤ wpl → (l.words.length : ℤ) ≤ wpl) ∧
      (2 ≤ l.words.length → joinedLen l.words ≤ mc) := by
  by_cases hw : words = []
  · subst hw
    exact ⟨rfl, by simp [group_words_into_lines], by simp [group_words_into_lines]⟩
  · have h := groupWordsGo_sound wpl mc words [] [] 0 (by simp)
      (by simp [charsOf]) (by intro h1; simp; omega) (by intro h2; simp at h2)
    have hg : group_words_into_lines words wpl mc =
        groupWordsGo wpl mc words [] [] 0 := by
      unfold group_words_into_lines
      rw [if_neg hw]
    refine ⟨rfl, ?_, ?_⟩
    · rw [hg, h.2]
      simp
    · rw [hg]
      intro l hl
      exact h.1 l hl

/-- Witness for C1 on three concrete words with `words_per_line = 2`. -/
theorem group_words_into_lines_correct_witness :
    ((group_words_into_lines
        [⟨"go", 0, 1, 1⟩, ⟨"fast", 1, 2, 1⟩, ⟨"now", 2, 3, 1⟩] 2 30).map
        CaptionLine.words).flatten =
      [⟨"go", 0, 1, 1⟩, ⟨"fast", 1, 2, 1⟩, ⟨"now", 2, 3, 1⟩] ∧
    ((CaptionLine.mk [⟨"go", 0, 1, 1⟩, ⟨"fast", 1, 2, 1⟩]).words.length : ℤ) ≤ 2 ∧
    joinedLen (CaptionLine.mk [⟨"go", 0, 1, 1⟩, ⟨"fast", 1, 2, 1⟩]).words ≤ 30 := by
  have h := group_words_into_lines_correct
    [⟨"go", 0, 1, 1⟩, ⟨"fast", 1, 2, 1⟩, ⟨"now", 2, 3, 1⟩] 2 30
  have hmem : CaptionLine.mk [⟨"go", 0, 1, 1⟩, ⟨"fast", 1, 2, 1⟩] ∈
      group_words_into_lines
        [⟨"go", 0, 1, 1⟩, ⟨"fast", 1, 2, 1⟩, ⟨"now", 2, 3, 1⟩] 2 30 := by
    with_unfolding_all decide
  exact ⟨h.2.1, (h.2.2 _ hmem).2.1 (by norm_num), (h.2.2 _ hmem).2.2 (by norm_num)⟩

/-- A 30-character word (at the default character budget, any line already
holding one such word must break before accepting another word). -/
def longWord : Word := ⟨"aaaaaaaaaaaaaaaaaaaaaaaaaaaaaa", 0, 1, 1⟩

/-- C9 (counterexample): an 8-word input with `words_per_line = 3` need not
produce lines of sizes 3,3,2 — with eight 30-character words and the
default `max_chars_per_line = 30`, the character limit forces eight
single-word lines. -/
theorem group_8_words_claim_false :
    ¬((group_words_into_lines (List.replicate 8 longWord) 3 30).map
        (fun l => l.words.length) = [3, 3, 2]) ∧
    (group_words_into_lines (List.replicate 8 longWord) 3 30).map
        (fun l => l.words.length) = [1, 1, 1, 1, 1, 1, 1, 1] := by
  constructor <;> with_unfolding_all decide

/-- C9 (amended): for every 8-word input segmented with
`words_per_line = 3`, provided the character limit does not force an
earlier break (each prospective line's character tally — word lengths plus
one per word — fits in `max_chars_per_line`), the segmenter produces
exactly 3 lines of sizes 3, 3 and 2, in the original word order. -/
theorem group_8_words_into_3_lines (w0 w1 w2 w3 w4 w5 w6 w7 : Word) (mc : ℤ)
    (h1 : charsOf [w0, w1, w2] ≤ mc) (h2 : charsOf [w3, w4, w5] ≤ mc)
    (h3 : charsOf [w6, w7] ≤ mc) :
    group_words_into_lines [w0, w1, w2, w3, w4, w5, w6, w7] 3 mc =
      [⟨[w0, w1, w2]⟩, ⟨[w3, w4, w5]⟩, ⟨[w6, w7]⟩] := by
  simp only [charsOf, List.map_cons, List.map_nil, List.sum_cons,
    List.sum_nil] at h1 h2 h3
  have e0 : group_words_into_lines [w0, w1, w2, w3, w4, w5, w6, w7] 3 mc =
      groupWordsGo 3 mc [w0, w1, w2, w3, w4, w5, w6, w7] [] [] 0 := by
    unfold group_words_into_lines
    rw [if_neg (by simp)]
  rw [e0, groupWordsGo_add 3 mc w0 _ _ [] 0 (by simp)]
  simp only [List.nil_append, zero_add]
  rw [groupWordsGo_add 3 mc w1 _ _ [w0] ((w0.text.length : ℤ) + 1)
    (by rintro ⟨-, h | h⟩
        · simp at h
        · omega)]
  simp only [List.cons_append, List.singleton_append, List.nil_append]
  rw [groupWordsGo_add 3 mc w2 _ _ [w0, w1]
    ((w0.text.length : ℤ) + 1 + (w1.text.length : ℤ) + 1)
    (by rintro ⟨-, h | h⟩
        · simp at h
        · omega)]
  simp only [List.cons_append, List.singleton_append, List.nil_append]
  rw [groupWordsGo_break 3 mc w3 _ _ [w0, w1, w2]
    ((w0.text.length : ℤ) + 1 + (w1.text.length : ℤ) + 1 +
      (w2.text.length : ℤ) + 1)
    ⟨by simp, Or.inl (by simp)⟩]
  simp only [List.nil_append]
  rw [groupWordsGo_add 3 mc w4 _ _ [w3] ((w3.text.length : ℤ) + 1)
    (by rintro ⟨-, h | h⟩
        · simp at h
        · omega)]
  simp only [List.cons_append, List.singleton_append, List.nil_append]
  rw [groupWordsGo_add 3 mc w5 _ _ [w3, w4]
    ((w3.text.length : ℤ) + 1 + (w4.text.length : ℤ) + 1)
    (by rintro ⟨-, h | h⟩
        · simp at h
        · omega)]
  simp only [List.cons_append, List.singleton_append, List.nil_append]
  rw [groupWordsGo_break 3 mc w6 _ _ [w3, w4, w5]
    ((w3.text.length : ℤ) + 1 + (w4.text.length : ℤ) + 1 +
      (w5.text.length : ℤ) + 1)
    ⟨by simp, Or.inl (by simp)⟩]
  simp only [List.cons_append, List.singleton_append, List.nil_append]
  rw [groupWordsGo_add 3 mc w7 _ _ [w6] ((w6.text.length : ℤ) + 1)
    (by rintro ⟨-, h | h⟩
        · simp at h
        · omega)]
  simp only [List.cons_append, List.singleton_append, List.nil_append]
  rw [groupWordsGo_flush 3 mc _ [w6, w7] _ (by simp)]
  simp

/-- Witness for C9 (amended) on eight concrete short words. -/
theorem group_8_words_into_3_lines_witness :
    group_words_into_lines
      [⟨"a", 0, 1, 1⟩, ⟨"b", 1, 2, 1⟩, ⟨"c", 2, 3, 1⟩, ⟨"d", 3, 4, 1⟩,
       ⟨"e", 4, 5, 1⟩, ⟨"f", 5, 6, 1⟩, ⟨"g", 6, 7, 1⟩, ⟨"h", 7, 8, 1⟩] 3 30 =
      [⟨[⟨"a", 0, 1, 1⟩, ⟨"b", 1, 2, 1⟩, ⟨"c", 2, 3, 1⟩]⟩,
       ⟨[⟨"d", 3, 4, 1⟩, ⟨"e", 4, 5, 1⟩, ⟨"f", 5, 6, 1⟩]⟩,
       ⟨[⟨"g", 6, 7, 1⟩, ⟨"h", 7, 8, 1⟩]⟩] :=
  group_8_words_into_3_lines _ _ _ _ _ _ _ _ 30
    (by with_unfolding_all decide) (by with_unfolding_all decide)
    (by with_unfolding_all decide)

theorem padWordsFrom_length (p : ℚ) (n : ℕ) (ws : List Word) :
    ∀ j : ℕ, (padWordsFrom p n j ws).length = ws.length := by
  induction ws with
  | nil => intro j; rfl
  | cons w rest ih => intro j; simp [padWordsFrom, ih]

theorem padWordsFrom_get (p : ℚ) (n : ℕ) (ws : List Word) :
    ∀ (j k : ℕ) (hk : k < ws.length)
      (hk' : k < (padWordsFrom p n j ws).length),
    (padWordsFrom p n j ws).get ⟨k, hk'⟩ = padWord p n (j + k) (ws.get ⟨k, hk⟩) := by
  induction ws with
  | nil => intro j k hk hk'; simp at hk
  | cons w rest ih =>
      intro j k hk hk'
      cases k with
      | zero => simp [padWordsFrom]
      | succ m =>
          have hm : m < rest.length := by simpa using hk
          have hm' : m < (padWordsFrom p n (j + 1) rest).length := by
            rw [padWordsFrom_length]; exact hm
          have := ih (j + 1) m hm hm'
          simp only [padWordsFrom, List.get_cons_succ]
          rw [this, show j + 1 + m = j + (m + 1) from by omega]

/-- C8: `_add_line_padding` keeps the line/word structure; in each line
(given the data-model invariant that word start times are non-negative)
it changes only the first word's start (decreased by the padding, clamped
at 0) and the last word's end (increased by the padding); every other
timing field, and every word's text and confidence, are unchanged. -/
theorem add_line_padding_spec (lines : List CaptionLine) (p : ℚ)
    (hpos : ∀ l ∈ lines, ∀ w ∈ l.words, 0 ≤ w.start) :
    ((_add_line_padding lines p).length = lines.length) ∧
    (∀ (i : ℕ) (hi : i < lines.length)
        (hi' : i < (_add_line_padding lines p).length),
      (_add_line_padding lines p).get ⟨i, hi'⟩ =
        CaptionLine.mk (padWordsFrom p (lines.get ⟨i, hi⟩).words.length 0
          (lines.get ⟨i, hi⟩).words)) ∧
    (∀ l ∈ lines, ∀ (j : ℕ) (hj : j < l.words.length)
        (hj' : j < (padWordsFrom p l.words.length 0 l.words).length),
      ((padWordsFrom p l.words.length 0 l.words).get ⟨j, hj'⟩).text =
        (l.words.get ⟨j, hj⟩).text ∧
      ((padWordsFrom p l.words.length 0 l.words).get ⟨j, hj'⟩).confidence =
        (l.words.get ⟨j, hj⟩).confidence ∧
      (j = 0 → ((padWordsFrom p l.words.length 0 l.words).get ⟨j, hj'⟩).start =
        max 0 ((l.words.get ⟨j, hj⟩).start - p)) ∧
      (j ≠ 0 → ((padWordsFrom p l.words.length 0 l.words).get ⟨j, hj'⟩).start =
        (l.words.get ⟨j, hj⟩).start) ∧
      (j = l.words.length - 1 →
        ((padWordsFrom p l.words.length 0 l.words).get ⟨j, hj'⟩).end_ =
          (l.words.get ⟨j, hj⟩).end_ + p) ∧
      (j ≠ l.words.length - 1 →
        ((padWordsFrom p l.words.length 0 l.words).get ⟨j, hj'⟩).end_ =
          (l.words.get ⟨j, hj⟩).end_)) := by
  refine ⟨by simp [_add_line_padding], ?_, ?_⟩
  · intro i hi hi'
    simp [_add_line_padding]
  · intro l hl j hj hj'
    have hget := padWordsFrom_get p l.words.length l.words 0 j hj hj'
    have hmem : l.words.get ⟨j, hj⟩ ∈ l.words := List.get_mem l.words j hj
    have h0 : 0 ≤ (l.words.get ⟨j, hj⟩).start := hpos l hl _ hmem
    rw [hget]
    refine ⟨rfl, rfl, ?_, ?_, ?_, ?_⟩
    · intro hj0
      subst hj0
      simp [padWord]
    · intro hj0
      simp [padWord, hj0]
      simpa using h0
    · intro hjl
      subst hjl
      simp [padWord]
    · intro hjl
      simp [padWord, hjl]

/-- Witness for C8 on a single two-word line with padding 0.1. -/
theorem add_line_padding_spec_witness :
    (_add_line_padding [⟨[⟨"hi", 1, 2, 1⟩, ⟨"yo", 2, 3, 1⟩]⟩] (1 / 10)).length = 1 ∧
    ((padWordsFrom (1 / 10) 2 0 [⟨"hi", 1, 2, 1⟩, ⟨"yo", 2, 3, 1⟩]).get
        ⟨1, by with_unfolding_all decide⟩).end_ =
      (Word.mk "yo" 2 3 1).end_ + 1 / 10 := by
  have h := add_line_padding_spec [⟨[⟨"hi", 1, 2, 1⟩, ⟨"yo", 2, 3, 1⟩]⟩] (1 / 10)
    (by with_unfolding_all decide)
  refine ⟨h.1.trans rfl, ?_⟩
  have h3 := h.2.2 ⟨[⟨"hi", 1, 2, 1⟩, ⟨"yo", 2, 3, 1⟩]⟩ (by simp) 1
    (by decide) (by with_unfolding_all decide)
  exact h3.2.2.2.2.1 (by decide)

end CaptionEngine
